import Mathlib

/-!
Verification of the holiday-destination-finder core against its design
specification.  The Python source is shallowly embedded: floats become
rationals (the algorithms use only field arithmetic, min/max and
comparisons), dicts become association lists or structures with `Option`
fields, and the Redis-backed job store becomes an explicit state record.
-/

namespace HolidayFinder

/-! ## Scoring (src/holiday_destination_finder/scoring.py) -/

/-- Weather summary dict: `avg_temp_c` and `avg_precip_mm_per_day`. -/
structure Weather where
  avg_temp_c : ℚ
  avg_precip_mm_per_day : ℚ
deriving DecidableEq

/-- `price_score(price, min_price, max_price)` from scoring.py.
`none` models a Python `None` price (checked first in the source). -/
def price_score (price : Option ℚ) (min_price max_price : ℚ) : ℚ :=
  match price with
  | none => 0
  | some p =>
    if max_price = min_price then 100
    else
      let norm := (p - min_price) / (max_price - min_price)
      let norm2 := max 0 (min 1 norm)
      let score := 100 - 50 * norm2
      max 0 (min 100 score)

/-- `weather_score(weather)` from scoring.py (0.2 = 1/5, 0.5 = 1/2,
15 rain weight, 0.6/0.4 split). -/
def weather_score (weather : Weather) : ℚ :=
  let temp := weather.avg_temp_c
  let rain := weather.avg_precip_mm_per_day
  let ideal_temp : ℚ := 26
  let penalty_per_degree : ℚ := 3
  let temp_sc := max 0 (100 - penalty_per_degree * |temp - ideal_temp|)
  let effective_rain : ℚ :=
    if rain < 1/5 then 0
    else if rain < 1 then 1/2
    else rain
  let rain_sc := max 0 (100 - effective_rain * 15)
  (3/5) * temp_sc + (2/5) * rain_sc

/-- `stop_penalty(total_stops)` from scoring.py:
`total_stops = max(0, int(total_stops)); max(0.5, 1.0 - 0.1 * total_stops)`. -/
def stop_penalty (total_stops : ℤ) : ℚ :=
  let s := max 0 total_stops
  max (1/2) (1 - (1/10) * (s : ℚ))

/-- `total_score(weather_data, flight_price, total_stops, min_price, max_price)`
from scoring.py: `0.4 * p + 0.6 * w` with
`p = price_score(price, ...) * stop_penalty(stops)`. -/
def total_score (weather_data : Weather) (flight_price : ℚ) (total_stops : ℤ)
    (min_price max_price : ℚ) : ℚ :=
  let p := price_score (some flight_price) min_price max_price * stop_penalty total_stops
  let w := weather_score weather_data
  (2/5) * p + (3/5) * w

/-! ## Weather cache (main.py, `_process_single_destination`)

The cache is a dict from `(lat, lon, dep_iso, ret_iso)` to weather data,
consulted and updated under `weather_cache_lock`; the lock makes each
get-or-fetch atomic, so it is modelled as a sequential operation. -/

abbrev WKey := ℚ × ℚ × String × String

abbrev WeatherCache := List (WKey × Weather)

/-- Dict lookup `weather_cache[cache_key]` / `cache_key in weather_cache`. -/
def cacheLookup (c : WeatherCache) (k : WKey) : Option Weather :=
  (c.find? (fun kv => decide (kv.1 = k))).map (fun kv => kv.2)

/-- Result of one locked get-or-fetch: the value returned, the cache
afterwards, and how many upstream `get_weather_data` calls were made. -/
structure FetchResult where
  value : Weather
  cache : WeatherCache
  upstream_calls : Nat
deriving DecidableEq

/-- The locked cache block of `_process_single_destination`: if the key is
absent, call `get_weather_data` (here the fixed function `upstream`) and
store the result; then return `weather_cache[cache_key]`. -/
def getOrFetch (cache : WeatherCache) (key : WKey) (upstream : WKey → Weather) :
    FetchResult :=
  match cacheLookup cache key with
  | some w => ⟨w, cache, 0⟩
  | none =>
    let w := upstream key
    ⟨w, (key, w) :: cache, 1⟩

/-! ## Search pipeline (main.py, `_process_single_destination` and
`search_destinations`)

Upstream responses are fixed: `offersOf` is the merged provider fan-out for
one destination (the concatenation `offers_a + offers_r + offers_w` with
`None` entries dropped) and `weatherOf` is `get_weather_data` (by claim C5
the lock-guarded cache is transparent once the upstream map is fixed).
Destinations are submitted in catalog order but collected with
`as_completed`, so the order in which results are appended is the thread
completion order, an arbitrary permutation of the catalog indices; it is
passed in explicitly as `completionOrder`. -/

/-- One row of the destination catalog CSV. -/
structure Dest where
  city : String
  country : String
  airport : String
  lat : ℚ
  lon : ℚ
deriving DecidableEq

/-- One normalized candidate offer
`(price, curr, stops, airline, dep, ret)`; dates already in ISO form. -/
structure Offer where
  price : ℚ
  currency : String
  stops : ℤ
  airline : String
  dep : String
  ret : String
deriving DecidableEq

/-- The dict returned by `_process_single_destination` (before the second
scoring pass; `weather_data` still attached, no `score` yet). -/
structure DestResult where
  city : String
  country : String
  airport : String
  avg_temp_c : ℚ
  avg_precip_mm_per_day : ℚ
  flight_price : ℚ
  currency : String
  total_stops : ℤ
  airlines : String
  best_departure : String
  best_return : String
  weather_data : Weather
deriving DecidableEq

/-- A result dict after the second pass: `weather_data` popped, `score`
added. -/
structure ScoredResult where
  city : String
  country : String
  airport : String
  avg_temp_c : ℚ
  avg_precip_mm_per_day : ℚ
  flight_price : ℚ
  currency : String
  total_stops : ℤ
  airlines : String
  best_departure : String
  best_return : String
  score : ℚ
deriving DecidableEq

/-- Python `min(list)` on a nonempty list (the source only calls it on
nonempty lists; `[]` is given a junk value). -/
def listMin : List ℚ → ℚ
  | [] => 0
  | x :: xs => xs.foldl min x

/-- Python `max(list)` on a nonempty list. -/
def listMax : List ℚ → ℚ
  | [] => 0
  | x :: xs => xs.foldl max x

/-- The candidate loop of `_process_single_destination`: score each offer
against the local price range and keep the first strictly-best one
(`if best_score is None or score > best_score`). -/
def bestCandidate (d : Dest) (weatherOf : WKey → Weather)
    (loc_min_price loc_max_price : ℚ) (candidates : List Offer) :
    Option (Offer × Weather × ℚ) :=
  candidates.foldl
    (fun acc o =>
      let weather_info := weatherOf (d.lat, d.lon, o.dep, o.ret)
      let score := total_score weather_info o.price o.stops loc_min_price loc_max_price
      match acc with
      | none => some (o, weather_info, score)
      | some (_, _, best_score) =>
        if score > best_score then some (o, weather_info, score) else acc)
    none

/-- `_process_single_destination`: merge provider offers, compute the local
price range, pick the best-scoring offer, return the result dict (or `None`
when the destination yielded no offers). -/
def processDest (weatherOf : WKey → Weather) (offersOf : Dest → List Offer)
    (d : Dest) : Option DestResult :=
  let candidates := offersOf d
  if candidates.isEmpty then none
  else
    let price_list := candidates.map (fun o => o.price)
    let loc_min_price := listMin price_list
    let loc_max_price := listMax price_list
    match bestCandidate d weatherOf loc_min_price loc_max_price candidates with
    | none => none
    | some (o, w, _) =>
      some { city := d.city, country := d.country, airport := d.airport,
             avg_temp_c := w.avg_temp_c,
             avg_precip_mm_per_day := w.avg_precip_mm_per_day,
             flight_price := o.price, currency := o.currency,
             total_stops := o.stops, airlines := o.airline,
             best_departure := o.dep, best_return := o.ret,
             weather_data := w }

/-- Stable insertion for a descending sort by `score`: an element inserted
into the sorted tail goes before the first element it is not below, so
earlier elements stay first among equal scores — exactly the guarantee of
Python's stable `list.sort(key=score, reverse=True)`. -/
def insertByScore (x : ScoredResult) : List ScoredResult → List ScoredResult
  | [] => [x]
  | y :: ys => if y.score ≤ x.score then x :: y :: ys else y :: insertByScore x ys

/-- Stable descending sort by `score`, modelling
`results.sort(key=lambda x: float(x.get('score', 0)), reverse=True)`. -/
def sortByScoreDesc : List ScoredResult → List ScoredResult
  | [] => []
  | x :: xs => insertByScore x (sortByScoreDesc xs)

/-- Attach the pass-2 score to one result dict. -/
def rescore (min_price max_price : ℚ) (r : DestResult) : ScoredResult :=
  { city := r.city, country := r.country, airport := r.airport,
    avg_temp_c := r.avg_temp_c,
    avg_precip_mm_per_day := r.avg_precip_mm_per_day,
    flight_price := r.flight_price, currency := r.currency,
    total_stops := r.total_stops, airlines := r.airlines,
    best_departure := r.best_departure, best_return := r.best_return,
    score := total_score r.weather_data r.flight_price r.total_stops
      min_price max_price }

/-- `search_destinations`: collect per-destination results in completion
order, bail out with `[]` when no prices survive, re-score against the
global price range, stable-sort descending by score, truncate to `top_n`. -/
def search_destinations (catalog : List Dest) (offersOf : Dest → List Offer)
    (weatherOf : WKey → Weather) (top_n : Nat)
    (completionOrder : List Nat) : List ScoredResult :=
  let results : List DestResult :=
    completionOrder.filterMap
      (fun i => (catalog[i]?).bind (processDest weatherOf offersOf))
  let prices := results.map (fun r => r.flight_price)
  if prices.isEmpty then []
  else
    let min_price := listMin prices
    let max_price := listMax prices
    let scored := results.map (rescore min_price max_price)
    (sortByScoreDesc scored).take top_n

/-! ## Job store (src/holiday_destination_finder/kv_queue.py)

The Redis state is the set of job hashes plus the pending-id list
`queue:jobs`.  Each operation takes an `avail` flag: `avail = false` means
the underlying store raises an unavailability error at the first Redis
call, modelled as `Except.error`.  `expire` only refreshes the TTL and is
not modelled (no claim here concerns expiry).  The Supabase dual-write in
`set_done`/`set_failed` is wrapped in its own try/except in the source,
never changes the Redis state and never raises, so it is omitted.
The `result` payload is stored serialized (`json.dumps`); serialization is
abstracted away and the payload kept structured. -/

/-- The `meta` sub-dict the worker stores in a done payload. -/
structure PayloadMeta where
  origin : String
  start : String
  endDate : String
  trip_length : ℤ
  providers : List String
  top_n : ℤ
deriving DecidableEq

/-- The payload written by `set_done` (worker.py builds
`{"meta": ..., "results": results}`). -/
structure Payload where
  meta : PayloadMeta
  results : List ScoredResult
deriving DecidableEq

/-- One job hash `job:{job_id}`; every field is optional because Redis
hashes hold whichever fields have been written. -/
structure JobRecord where
  status : Option String
  created_at : Option String
  params : Option String
  client_id : Option String
  processed : Option String
  total : Option String
  current : Option String
  origin_airport : Option String
  origin_airport_idx : Option String
  origin_airport_total : Option String
  result : Option Payload
  error : Option String
deriving DecidableEq

/-- A job hash with no fields (i.e. a key Redis does not hold). -/
def emptyRecord : JobRecord :=
  ⟨none, none, none, none, none, none, none, none, none, none, none, none⟩

/-- The whole Redis state: job hashes keyed by id, and the FIFO queue. -/
structure RedisState where
  records : List (String × JobRecord)
  queue : List String
deriving DecidableEq

/-- Store unavailability, the error Redis raises on every call. -/
inductive StoreErr where
  | unavailable
deriving DecidableEq

/-- Look a job hash up by id (`r.hgetall` / `r.exists`: `none` means the
key is absent). -/
def lookupRecord (rs : List (String × JobRecord)) (job_id : String) :
    Option JobRecord :=
  (rs.find? (fun kv => kv.1 == job_id)).map (fun kv => kv.2)

/-- `r.hset(key, mapping=...)`: update the hash in place, creating it when
absent. -/
def updateRecord (rs : List (String × JobRecord)) (job_id : String)
    (f : JobRecord → JobRecord) : List (String × JobRecord) :=
  match lookupRecord rs job_id with
  | some rec => rs.map (fun kv => if kv.1 == job_id then (job_id, f rec) else kv)
  | none => (job_id, f emptyRecord) :: rs

/-- Python truthiness of an optional string (`if client_id:`,
`if city and airport:`): `None` and `""` are falsy. -/
def truthy : Option String → Bool
  | none => false
  | some s => s ≠ ""

/-- `enqueue(params, client_id)`: write a fresh queued record and push the
id on the queue tail.  The generated `uuid4` id and `time.time()` stamp are
nondeterministic in the source and passed in as `fresh_id` / `now`. -/
def enqueue (avail : Bool) (fresh_id now params : String)
    (client_id : Option String) (st : RedisState) :
    Except StoreErr (String × RedisState) :=
  if avail then
    let base := { emptyRecord with
      status := some "queued"
      created_at := some now
      params := some params }
    let rec0 := if truthy client_id then { base with client_id := client_id } else base
    .ok (fresh_id,
      ⟨updateRecord st.records fresh_id (fun _ => rec0), st.queue ++ [fresh_id]⟩)
  else .error .unavailable

/-- `get_job(job_id)`: `r.hgetall` then `data or None`. -/
def get_job (avail : Bool) (job_id : String) (st : RedisState) :
    Except StoreErr (Option JobRecord) :=
  if avail then .ok (lookupRecord st.records job_id) else .error .unavailable

/-- `set_running(job_id)`. -/
def set_running (avail : Bool) (job_id : String) (st : RedisState) :
    Except StoreErr RedisState :=
  if avail then
    .ok ⟨updateRecord st.records job_id (fun r => { r with status := some "running" }),
         st.queue⟩
  else .error .unavailable

/-- `set_progress(job_id, processed, total, city, airport, origin_airport,
origin_airport_idx, origin_airport_total)`: always writes
`processed`/`total`; writes `current` when `city and airport` are truthy;
writes the three origin-airport phase fields when `origin_airport` is
truthy and both counters are not `None`. -/
def set_progress (avail : Bool) (job_id : String) (processed total : ℤ)
    (city airport origin_airport : Option String)
    (origin_airport_idx origin_airport_total : Option ℤ) (st : RedisState) :
    Except StoreErr RedisState :=
  if avail then
    .ok ⟨updateRecord st.records job_id (fun r =>
          let r1 := { r with
            processed := some (toString processed)
            total := some (toString total) }
          let r2 :=
            if truthy city ∧ truthy airport then
              { r1 with current := some ((city.getD "") ++ " (" ++ (airport.getD "") ++ ")") }
            else r1
          if truthy origin_airport ∧ origin_airport_idx ≠ none ∧
              origin_airport_total ≠ none then
            { r2 with
              origin_airport := origin_airport
              origin_airport_idx := origin_airport_idx.map (fun i => toString i)
              origin_airport_total := origin_airport_total.map (fun i => toString i) }
          else r2),
        st.queue⟩
  else .error .unavailable

/-- `set_done(job_id, payload)`: set `status`/`result`, then
`r.hdel(key, "processed", "total", "current")` — and only those three
fields. -/
def set_done (avail : Bool) (job_id : String) (payload : Payload)
    (st : RedisState) : Except StoreErr RedisState :=
  if avail then
    .ok ⟨updateRecord st.records job_id (fun r =>
          { r with
            status := some "done"
            result := some payload
            processed := none
            total := none
            current := none }),
        st.queue⟩
  else .error .unavailable

/-- `set_failed(job_id, error)`: set `status`/`error`, then delete
`processed`, `total`, `current`. -/
def set_failed (avail : Bool) (job_id : String) (error : String)
    (st : RedisState) : Except StoreErr RedisState :=
  if avail then
    .ok ⟨updateRecord st.records job_id (fun r =>
          { r with
            status := some "failed"
            error := some error
            processed := none
            total := none
            current := none }),
        st.queue⟩
  else .error .unavailable

/-- `get_queue_position(job_id)`: the whole body is inside
`try: ... except Exception: return None`, so a store error is swallowed and
`None` returned; otherwise scan the queue and return the 1-based index. -/
def get_queue_position (avail : Bool) (job_id : String) (st : RedisState) :
    Option Nat :=
  if avail then
    let queue_items := st.queue
    if queue_items.isEmpty then none
    else
      match queue_items.findIdx? (fun x => x == job_id) with
      | some position => some (position + 1)
      | none => none
  else none

/-- `cancel_job(job_id)`: the whole body is inside
`try: ... except Exception: return False`, so a store error is swallowed
and `False` returned; otherwise remove the id from the queue, and when the
job exists with status `queued` or `running` mark it `cancelled` and return
`True`, else return `False`. -/
def cancel_job (avail : Bool) (job_id : String) (st : RedisState) :
    Bool × RedisState :=
  if avail then
    let st1 : RedisState := ⟨st.records, st.queue.filter (fun x => ¬(x == job_id))⟩
    match lookupRecord st1.records job_id with
    | none => (false, st1)
    | some rec =>
      if rec.status = some "queued" ∨ rec.status = some "running" then
        (true,
         ⟨updateRecord st1.records job_id (fun r => { r with status := some "cancelled" }),
          st1.queue⟩)
      else (false, st1)
  else (false, st)

/-! ## Concrete fixtures used by the closed theorems below -/

/-- Pleasant fixed weather used as a constant upstream response. -/
def demoWeather : Weather := ⟨25, 0⟩

/-- A constant weather source (fixed upstream responses). -/
def demoWeatherOf : WKey → Weather := fun _ => demoWeather

/-- First catalog row. -/
def destAlpha : Dest := ⟨"Alpha", "Aland", "AAA", 10, 20⟩

/-- Second catalog row. -/
def destBeta : Dest := ⟨"Beta", "Bland", "BBB", 30, 40⟩

/-- A single fixed offer. -/
def demoOffer : Offer := ⟨100, "EUR", 0, "TestAir", "2026-06-01", "2026-06-08"⟩

/-- Every destination gets the same single offer. -/
def demoOffersOf : Dest → List Offer := fun _ => [demoOffer]

/-- No destination gets any offer (all providers/dates exhausted). -/
def emptyOffersOf : Dest → List Offer := fun _ => []

/-- A weather-cache key. -/
def demoKey : WKey := (10, 20, "2026-06-01", "2026-06-08")

/-- The meta block of a worker payload. -/
def demoMeta : PayloadMeta := ⟨"WRO", "2026-06-01", "2026-06-30", 7, ["ryanair"], 10⟩

/-- A done payload with an empty ranked list. -/
def demoPayload : Payload := ⟨demoMeta, []⟩

/-- A store holding one freshly queued job. -/
def demoQueuedState : RedisState :=
  ⟨[("job1", { emptyRecord with status := some "queued" })], ["job1"]⟩

/-- `demoQueuedState` after a `set_progress` that includes the
origin-airport sub-progress phase. -/
def demoProgressState : RedisState :=
  match set_progress true "job1" 5 10 (some "Lisbon") (some "LIS") (some "WRO")
      (some 1) (some 2) demoQueuedState with
  | .ok st => st
  | .error _ => demoQueuedState

/-- `demoProgressState` after `set_done`. -/
def demoDoneState : RedisState :=
  match set_done true "job1" demoPayload demoProgressState with
  | .ok st => st
  | .error _ => demoProgressState

/-- A store holding one job already in status `done` with a payload. -/
def demoTerminalState : RedisState :=
  ⟨[("job1", { emptyRecord with status := some "done", result := some demoPayload })], []⟩

/-! ## Helper lemmas -/

/-- The stop penalty factor is nonnegative (it is at least 1/2). -/
theorem stop_penalty_nonneg (s : ℤ) : 0 ≤ stop_penalty s := by
  simp only [stop_penalty]
  have h := le_max_left ((1:ℚ)/2) (1 - (1/10) * ((max 0 s : ℤ) : ℚ))
  linarith

/-- With a nondegenerate range the outer `[0,100]` clamp in `price_score`
is the identity: the raw score already lies in `[50,100]`. -/
theorem price_score_eq_of_lt (pmin pmax p : ℚ) (h : pmin < pmax) :
    price_score (some p) pmin pmax
      = 100 - 50 * max 0 (min 1 ((p - pmin) / (pmax - pmin))) := by
  have hne : pmax ≠ pmin := ne_of_gt h
  have h0 : (0:ℚ) ≤ max 0 (min 1 ((p - pmin) / (pmax - pmin))) := le_max_left _ _
  have h1 : max 0 (min 1 ((p - pmin) / (pmax - pmin))) ≤ 1 :=
    max_le (by norm_num) (min_le_left _ _)
  simp only [price_score, if_neg hne]
  rw [min_eq_right (by linarith), max_eq_right (by linarith)]

/-- `price_score` is antitone in the price over a nondegenerate range. -/
theorem price_score_anti (pmin pmax p1 p2 : ℚ) (h : pmin < pmax) (hp : p1 ≤ p2) :
    price_score (some p2) pmin pmax ≤ price_score (some p1) pmin pmax := by
  rw [price_score_eq_of_lt pmin pmax p1 h, price_score_eq_of_lt pmin pmax p2 h]
  have hd : (0:ℚ) < pmax - pmin := sub_pos.mpr h
  have h1 : (p1 - pmin) / (pmax - pmin) ≤ (p2 - pmin) / (pmax - pmin) := by
    apply div_le_div_of_nonneg_right ?_ hd.le
    linarith
  have h2 : max 0 (min 1 ((p1 - pmin) / (pmax - pmin)))
      ≤ max 0 (min 1 ((p2 - pmin) / (pmax - pmin))) :=
    max_le_max le_rfl (min_le_min le_rfl h1)
  linarith

/-! ## Claim theorems -/

/-- C1, counterexample: with `price_min = 0` and `price_max = 100`, a price
equal to `price_max` yields component 50, not the 0 the claim states
(the source computes `100 - 50 * norm`, not `100 - 100 * norm`). -/
theorem claim_C1_counterexample :
    price_score (some 100) 0 100 = 50 ∧ price_score (some 100) 0 100 ≠ 0 := by
  constructor <;> norm_num [price_score]

/-- C1 (amended): for `price_min < price_max` the price component is the
linear normalization `100 - 50 * clamp01((price - min)/(max - min))`, a map
into [50,100] in which `price_min` yields 100 and `price_max` yields 50;
and whenever `price_min = price_max` the component is 100 for any price. -/
theorem claim_C1_amended (p pmin pmax : ℚ) :
    (pmin < pmax →
      price_score (some p) pmin pmax
          = 100 - 50 * max 0 (min 1 ((p - pmin) / (pmax - pmin))) ∧
      price_score (some pmin) pmin pmax = 100 ∧
      price_score (some pmax) pmin pmax = 50 ∧
      50 ≤ price_score (some p) pmin pmax ∧
      price_score (some p) pmin pmax ≤ 100) ∧
    price_score (some p) pmin pmin = 100 := by
  constructor
  · intro h
    have hd : (0:ℚ) < pmax - pmin := sub_pos.mpr h
    have e := price_score_eq_of_lt pmin pmax p h
    have h0 : (0:ℚ) ≤ max 0 (min 1 ((p - pmin) / (pmax - pmin))) := le_max_left _ _
    have h1 : max 0 (min 1 ((p - pmin) / (pmax - pmin))) ≤ 1 :=
      max_le (by norm_num) (min_le_left _ _)
    refine ⟨e, ?_, ?_, by linarith, by linarith⟩
    · rw [price_score_eq_of_lt pmin pmax pmin h]
      norm_num
    · rw [price_score_eq_of_lt pmin pmax pmax h]
      rw [div_self (ne_of_gt hd)]
      norm_num
  · simp [price_score]

/-- C1 witness: the amended statement evaluated at `p = 250`,
`price_min = 0`, `price_max = 100`. -/
theorem claim_C1_amended_witness :
    price_score (some 250) 0 100
        = 100 - 50 * max 0 (min 1 ((250 - 0) / (100 - 0))) ∧
    price_score (some 0) 0 100 = 100 ∧
    price_score (some 100) 0 100 = 50 ∧
    50 ≤ price_score (some 250) 0 100 ∧
    price_score (some 250) 0 100 ≤ 100 ∧
    price_score (some 250) 0 0 = 100 := by
  have h := claim_C1_amended 250 0 100
  have h2 := (claim_C1_amended 250 0 0).2
  have h1 := h.1 (by norm_num)
  exact ⟨h1.1, h1.2.1, h1.2.2.1, h1.2.2.2.1, h1.2.2.2.2, h2⟩

/-- C6: with `price_min < price_max` and weather and stops fixed, the total
score is monotonically non-increasing in the price. -/
theorem claim_C6_score_antitone (w : Weather) (s : ℤ) (p1 p2 pmin pmax : ℚ)
    (hmm : pmin < pmax) (hp : p1 ≤ p2) :
    total_score w p2 s pmin pmax ≤ total_score w p1 s pmin pmax := by
  have hps := price_score_anti pmin pmax p1 p2 hmm hp
  have hsp := stop_penalty_nonneg s
  have h1 : price_score (some p2) pmin pmax * stop_penalty s
      ≤ price_score (some p1) pmin pmax * stop_penalty s :=
    mul_le_mul_of_nonneg_right hps hsp
  simp only [total_score]
  linarith

/-- C6 witness: prices 80 ≤ 120 over the range [50, 150] with fixed
weather and zero stops. -/
theorem claim_C6_witness :
    total_score demoWeather 120 0 50 150 ≤ total_score demoWeather 80 0 50 150 :=
  claim_C6_score_antitone demoWeather 0 80 120 50 150 (by norm_num) (by norm_num)

/-- C7: for nonnegative stop counts the penalty factor is
`max(0.5, 1 - 0.1 * stops)`, it is monotonically non-increasing in the stop
count, and it never multiplies a nonnegative price component below half of
its unpenalized value. -/
theorem claim_C7_stop_penalty (s t : ℤ) (hs : 0 ≤ s) (hst : s ≤ t) :
    stop_penalty s = max (1/2) (1 - (1/10) * (s : ℚ)) ∧
    stop_penalty t ≤ stop_penalty s ∧
    (1/2) ≤ stop_penalty s ∧
    ∀ pc : ℚ, 0 ≤ pc → pc / 2 ≤ pc * stop_penalty s := by
  refine ⟨?_, ?_, ?_, ?_⟩
  · simp only [stop_penalty]
    rw [max_eq_right hs]
  · simp only [stop_penalty]
    have h1 : (max 0 s : ℤ) ≤ max 0 t := max_le_max le_rfl hst
    have h2 : ((max 0 s : ℤ) : ℚ) ≤ ((max 0 t : ℤ) : ℚ) := by exact_mod_cast h1
    apply max_le_max le_rfl
    linarith
  · simp only [stop_penalty]
    exact le_max_left _ _
  · intro pc hpc
    have h1 : (1:ℚ)/2 ≤ stop_penalty s := by
      simp only [stop_penalty]
      exact le_max_left _ _
    have h2 := mul_le_mul_of_nonneg_left h1 hpc
    linarith

/-- C7 witness: stop counts 1 ≤ 3 and the price component 7. -/
theorem claim_C7_witness :
    stop_penalty 1 = max (1/2) (1 - (1/10) * ((1:ℤ) : ℚ)) ∧
    stop_penalty 3 ≤ stop_penalty 1 ∧
    (1/2) ≤ stop_penalty 1 ∧
    (7:ℚ) / 2 ≤ 7 * stop_penalty 1 := by
  have h := claim_C7_stop_penalty 1 3 (by decide) (by decide)
  exact ⟨h.1, h.2.1, h.2.2.1, h.2.2.2 7 (by norm_num)⟩

/-- C10: the stop penalty is total on all integer stop counts, always lies
in [1/2, 1], and treats every negative stop count as zero stops, yielding
factor 1. -/
theorem claim_C10_stop_penalty_total (s : ℤ) :
    1/2 ≤ stop_penalty s ∧ stop_penalty s ≤ 1 ∧
    (s < 0 → stop_penalty s = 1 ∧ stop_penalty s = stop_penalty 0) := by
  refine ⟨?_, ?_, ?_⟩
  · simp only [stop_penalty]
    exact le_max_left _ _
  · simp only [stop_penalty]
    apply max_le (by norm_num)
    have h : (0:ℚ) ≤ ((max 0 s : ℤ) : ℚ) := by exact_mod_cast le_max_left 0 s
    linarith
  · intro hneg
    have h1 : stop_penalty s = 1 := by
      simp only [stop_penalty]
      rw [max_eq_left (le_of_lt hneg)]
      norm_num
    have h0 : stop_penalty 0 = 1 := by
      simp only [stop_penalty]
      norm_num
    exact ⟨h1, h1.trans h0.symm⟩

/-- C10 witness: the statement evaluated at stop count -3. -/
theorem claim_C10_witness :
    1/2 ≤ stop_penalty (-3) ∧ stop_penalty (-3) ≤ 1 ∧
    stop_penalty (-3) = 1 ∧ stop_penalty (-3) = stop_penalty 0 := by
  have h := claim_C10_stop_penalty_total (-3)
  have h3 := h.2.2 (by decide)
  exact ⟨h.1, h.2.1, h3.1, h3.2⟩

/-- C5: two get-or-fetch calls on the same fresh key issue exactly one
upstream call in total; the second call returns exactly the stored value
and leaves the cache unchanged. -/
theorem claim_C5_cache_idempotent (c : WeatherCache) (k : WKey)
    (up : WKey → Weather) (h : cacheLookup c k = none) :
    (getOrFetch c k up).upstream_calls = 1 ∧
    (getOrFetch (getOrFetch c k up).cache k up).upstream_calls = 0 ∧
    (getOrFetch (getOrFetch c k up).cache k up).value = (getOrFetch c k up).value ∧
    (getOrFetch (getOrFetch c k up).cache k up).cache = (getOrFetch c k up).cache := by
  have h2 : cacheLookup ((k, up k) :: c) k = some (up k) := by
    simp [cacheLookup]
  simp [getOrFetch, h, h2]

/-- C5 witness: an empty cache and a concrete key. -/
theorem claim_C5_witness :
    cacheLookup [] demoKey = none ∧
    (getOrFetch [] demoKey demoWeatherOf).upstream_calls = 1 ∧
    (getOrFetch (getOrFetch [] demoKey demoWeatherOf).cache demoKey demoWeatherOf).upstream_calls = 0 ∧
    (getOrFetch (getOrFetch [] demoKey demoWeatherOf).cache demoKey demoWeatherOf).value
      = (getOrFetch [] demoKey demoWeatherOf).value ∧
    (getOrFetch (getOrFetch [] demoKey demoWeatherOf).cache demoKey demoWeatherOf).cache
      = (getOrFetch [] demoKey demoWeatherOf).cache := by
  have h : cacheLookup [] demoKey = none := rfl
  have hm := claim_C5_cache_idempotent [] demoKey demoWeatherOf h
  exact ⟨h, hm.1, hm.2.1, hm.2.2.1, hm.2.2.2⟩

/-- C4, counterexample: on an unavailable store, `cancel_job` and
`get_queue_position` do NOT propagate the error — their try/except blocks
convert it into the normal return values `False` and `None` (here on a
state in which an available store would return `True` and position 1). -/
theorem claim_C4_counterexample :
    cancel_job false "job1" demoQueuedState = (false, demoQueuedState) ∧
    get_queue_position false "job1" demoQueuedState = none ∧
    (cancel_job true "job1" demoQueuedState).1 = true ∧
    get_queue_position true "job1" demoQueuedState = some 1 := by
  refine ⟨rfl, rfl, ?_, ?_⟩ <;> decide

/-- C4 (amended): store unavailability propagates to the caller of
`enqueue`, `get_job`, `set_running`, `set_progress`, `set_done` and
`set_failed`; but `get_queue_position` and `cancel_job` swallow it inside
their try/except blocks and return `None` / `False` instead. -/
theorem claim_C4_amended (job_id fresh_id now params error : String)
    (client_id : Option String) (processed total : ℤ)
    (city airport origin_airport : Option String)
    (oi ot : Option ℤ) (payload : Payload) (st : RedisState) :
    enqueue false fresh_id now params client_id st = .error .unavailable ∧
    get_job false job_id st = .error .unavailable ∧
    set_running false job_id st = .error .unavailable ∧
    set_progress false job_id processed total city airport origin_airport oi ot st
      = .error .unavailable ∧
    set_done false job_id payload st = .error .unavailable ∧
    set_failed false job_id error st = .error .unavailable ∧
    get_queue_position false job_id st = none ∧
    cancel_job false job_id st = (false, st) :=
  ⟨rfl, rfl, rfl, rfl, rfl, rfl, rfl, rfl⟩

/-- C2: two runs of the full pipeline on identical inputs (same catalog,
same offers, same weather) but different thread completion orders return
different ordered lists, because results are appended in `as_completed`
order and the stable sort leaves score ties in that order rather than in
catalog order.  Here both destinations tie exactly, so run one returns
Alpha before Beta and run two returns Beta before Alpha. -/
theorem claim_C2_order_dependent :
    search_destinations [destAlpha, destBeta] demoOffersOf demoWeatherOf 10 [0, 1]
      ≠ search_destinations [destAlpha, destBeta] demoOffersOf demoWeatherOf 10 [1, 0] := by
  simp [search_destinations, demoOffersOf, demoWeatherOf, destAlpha, destBeta,
    processDest, bestCandidate, listMin, listMax, rescore, demoOffer, demoWeather,
    sortByScoreDesc, insertByScore]

/-- Rewriting every entry under key `k` to `(k, v)` makes the first hit of
a key scan return `(k, v)`, provided a hit existed. -/
theorem find?_update (l : List (String × JobRecord)) (k : String) (v : JobRecord)
    (hex : (l.find? (fun p => p.1 == k)).isSome) :
    (l.map (fun p => if p.1 == k then (k, v) else p)).find? (fun p => p.1 == k)
      = some (k, v) := by
  induction l with
  | nil => simp at hex
  | cons a tl ih =>
    by_cases hk : a.1 == k
    · rw [List.map_cons, if_pos hk]
      exact List.find?_cons_of_pos _ (by simp)
    · rw [List.map_cons, if_neg hk]
      have e1 : List.find? (fun p => p.1 == k)
          (a :: List.map (fun p => if p.1 == k then (k, v) else p) tl)
          = List.find? (fun p => p.1 == k)
            (List.map (fun p => if p.1 == k then (k, v) else p) tl) :=
        List.find?_cons_of_neg _ hk
      rw [e1]
      apply ih
      have e2 : List.find? (fun p => p.1 == k) (a :: tl)
          = List.find? (fun p => p.1 == k) tl :=
        List.find?_cons_of_neg _ hk
      rwa [e2] at hex

/-- Updating an existing job hash leaves it reachable under its key, with
the update applied. -/
theorem lookupRecord_updateRecord (rs : List (String × JobRecord)) (k : String)
    (f : JobRecord → JobRecord) (rec : JobRecord)
    (h : lookupRecord rs k = some rec) :
    lookupRecord (updateRecord rs k f) k = some (f rec) := by
  have hex : (rs.find? (fun p => p.1 == k)).isSome := by
    unfold lookupRecord at h
    cases hf : rs.find? (fun p => p.1 == k) with
    | none => rw [hf] at h; simp at h
    | some a => simp [hf]
  unfold updateRecord
  rw [h]
  unfold lookupRecord
  rw [find?_update rs k (f rec) hex]
  rfl

/-- C3: after `set_progress` writes the origin-airport sub-progress phase
and `set_done` then runs, the source deletes only `processed`, `total` and
`current`; the `origin_airport`, `origin_airport_idx` and
`origin_airport_total` fields survive in the stored record, contradicting
"all progress fields are absent".  The payload/error invariant does hold:
`result` is set and `error` is absent. -/
theorem claim_C3_origin_fields_survive :
    lookupRecord demoDoneState.records "job1" =
      some { emptyRecord with
             status := some "done", result := some demoPayload,
             origin_airport := some "WRO", origin_airport_idx := some "1",
             origin_airport_total := some "2" } := by
  decide

/-- C8: cancelling a job whose status is `done`, `failed` or `cancelled`
returns `False` and leaves every stored job hash unchanged; and whenever
`cancel_job` returns `True` the job existed with status `queued` or
`running` (the only states in which a cancellation is applied). -/
theorem claim_C8_cancel_terminal_noop (st : RedisState) (job_id : String)
    (rec : JobRecord) (hrec : lookupRecord st.records job_id = some rec)
    (hterm : rec.status = some "done" ∨ rec.status = some "failed" ∨
      rec.status = some "cancelled") :
    (cancel_job true job_id st).1 = false ∧
    (cancel_job true job_id st).2.records = st.records ∧
    (∀ st2 j2, (cancel_job true j2 st2).1 = true →
      ∃ r2, lookupRecord st2.records j2 = some r2 ∧
        (r2.status = some "queued" ∨ r2.status = some "running")) := by
  have hcond : ¬(rec.status = some "queued" ∨ rec.status = some "running") := by
    rcases hterm with h | h | h <;> simp [h]
  refine ⟨?_, ?_, ?_⟩
  · simp [cancel_job, hrec, hcond]
  · simp [cancel_job, hrec, hcond]
  · intro st2 j2 h
    cases heq : lookupRecord st2.records j2 with
    | none => simp [cancel_job, heq] at h
    | some r2 =>
      by_cases hc : r2.status = some "queued" ∨ r2.status = some "running"
      · exact ⟨r2, rfl, hc⟩
      · simp [cancel_job, heq, hc] at h

/-- C8 witness: a store holding one job already done with a payload. -/
theorem claim_C8_witness :
    (cancel_job true "job1" demoTerminalState).1 = false ∧
    (cancel_job true "job1" demoTerminalState).2.records = demoTerminalState.records ∧
    (∀ st2 j2, (cancel_job true j2 st2).1 = true →
      ∃ r2, lookupRecord st2.records j2 = some r2 ∧
        (r2.status = some "queued" ∨ r2.status = some "running")) :=
  claim_C8_cancel_terminal_noop demoTerminalState "job1"
    { emptyRecord with status := some "done", result := some demoPayload }
    (by decide) (Or.inl rfl)

/-- C9: when no destination yields any offer, the pipeline returns the
empty list without raising, and the worker records the job as done with an
empty ranked payload and no error. -/
theorem claim_C9_no_offers_is_done (catalog : List Dest)
    (offersOf : Dest → List Offer) (weatherOf : WKey → Weather)
    (top_n : Nat) (order : List Nat) (meta : PayloadMeta)
    (job_id : String) (st : RedisState) (rec : JobRecord)
    (hrec : lookupRecord st.records job_id = some rec)
    (herr : rec.error = none)
    (hoff : ∀ d, offersOf d = []) :
    search_destinations catalog offersOf weatherOf top_n order = [] ∧
    ∃ st', set_done true job_id
        ⟨meta, search_destinations catalog offersOf weatherOf top_n order⟩ st
        = .ok st' ∧
      ∃ rec', lookupRecord st'.records job_id = some rec' ∧
        rec'.status = some "done" ∧
        rec'.result = some ⟨meta, []⟩ ∧
        rec'.error = none := by
  have hempty : search_destinations catalog offersOf weatherOf top_n order = [] := by
    have hres : order.filterMap
        (fun i => (catalog[i]?).bind (processDest weatherOf offersOf)) = [] := by
      apply List.filterMap_eq_nil_iff.mpr
      intro i _
      cases hc : catalog[i]? with
      | none => rfl
      | some d => simp [hc, processDest, hoff]
    simp [search_destinations, hres]
  refine ⟨hempty, ?_⟩
  rw [hempty]
  refine ⟨_, rfl, ?_⟩
  have hup := lookupRecord_updateRecord st.records job_id
    (fun r => { r with
      status := some "done"
      result := some ⟨meta, []⟩
      processed := none
      total := none
      current := none }) rec hrec
  exact ⟨_, hup, rfl, rfl, herr⟩

/-- C9 witness: a one-destination catalog whose provider fan-out returns no
offers, and a freshly queued job record. -/
theorem claim_C9_witness :
    search_destinations [destAlpha] emptyOffersOf demoWeatherOf 10 [0] = [] ∧
    ∃ st', set_done true "job1"
        ⟨demoMeta, search_destinations [destAlpha] emptyOffersOf demoWeatherOf 10 [0]⟩
        demoQueuedState = .ok st' ∧
      ∃ rec', lookupRecord st'.records "job1" = some rec' ∧
        rec'.status = some "done" ∧
        rec'.result = some ⟨demoMeta, []⟩ ∧
        rec'.error = none :=
  claim_C9_no_offers_is_done [destAlpha] emptyOffersOf demoWeatherOf 10 [0]
    demoMeta "job1" demoQueuedState
    { emptyRecord with status := some "queued" }
    (by decide) rfl (fun _ => rfl)

end HolidayFinder
